import Mathlib

/-!
# LiveCollab room broker: shallow embedding and verification

This file embeds the real-time collaboration room broker of the LiveCollab
repository and proves properties of it.

Server side (`server/socket-server.js`): the Socket.IO connection handler
registers listeners for `join-room`, `page-change`, `cursor-move`,
`comment-added`, `disconnect` and `error`.  Room membership lives in the
Socket.IO adapter (`io.sockets.adapter.rooms`); each socket additionally
carries `currentRoom` and `userInfo` fields set by the join handler.
`socket.to(room).emit(ev)` delivers `ev` to every socket currently in
`room` except the sender; `socket.join(room)` adds the socket to `room`
without removing it from any other room.

Client side (`src/hooks/useSocket.ts`): the `useSocket` hook keeps
`isConnected`, `isConnecting`, `error`, `currentRoom` and `roomUsers`
state, registers inbound handlers for connect/disconnect/user-joined/
user-left/room-users, and exposes `joinRoom`, `leaveRoom`,
`emitPageChange`, `emitCursorMove` and `emitComment`.

Event names and payload shapes follow `src/lib/socket/events.ts`.
-/

namespace LiveCollab

/-- `user.user_metadata` as sent in the `join-room` payload
(`RoomData.user.user_metadata` in `events.ts`): an optional record with an
optional `full_name`. -/
structure UserMeta where
  full_name : Option String
deriving DecidableEq, Repr

/-- The user record carried by a `join-room` payload
(`RoomData.user` in `events.ts`): `{id, email, user_metadata?}`. -/
structure UserRecord where
  id : String
  email : String
  user_metadata : Option UserMeta
deriving DecidableEq, Repr

/-- JavaScript `a || b` for an optional string `a`: `b` when `a` is
absent or empty (the empty string is falsy in JS). -/
def jsOr (a : Option String) (b : String) : String :=
  match a with
  | some s => if s = "" then b else s
  | none => b

/-- `user.user_metadata?.full_name || user.email`, the display-name
expression used at `socket-server.js` lines 49, 61-62 and 114-115. -/
def displayName (u : UserRecord) : String :=
  jsOr (u.user_metadata.bind (fun m => m.full_name)) u.email

/-- The per-socket fields the server sets on join
(`socket.currentRoom`, `socket.userInfo`; unset before the first join). -/
structure SocketData where
  currentRoom : Option String
  userInfo : Option UserRecord
deriving DecidableEq, Repr

/-- Entry of the `room-users` reply (`UserInfo` with `socketId` present,
built at `socket-server.js` lines 58-64). -/
structure RosterEntry where
  userId : String
  userName : String
  socketId : String
deriving DecidableEq, Repr

/-- The comment payload relayed verbatim by the `comment-added` handler
(`CommentData.comment` in `events.ts`).  Coordinates are modelled as
integers; the server never inspects them. -/
structure CommentBody where
  id : String
  content : String
  pageNumber : Int
  pos : Option (Int × Int)
  userId : String
  userName : String
deriving DecidableEq, Repr

/-- Server-to-client events emitted by `socket-server.js`.  Each carries
the fields the corresponding `emit` call includes; `ts` is the
`new Date().toISOString()` stamp. -/
inductive ServerEvent where
  | userJoined (userId userName ts : String)
  | roomUsers (roster : List RosterEntry)
  | pageChanged (pageNumber : Int) (userId ts : String)
  | cursorMoved (x y : Int) (userId socketId ts : String)
  | commentReceived (comment : CommentBody) (ts : String)
  | userLeft (userId userName ts : String)
deriving DecidableEq, Repr

/-- Client-to-server messages.  These are the events the client emits in
`useSocket.ts` (`join-room`, `leave-room`, `page-change`, `cursor-move`,
`comment-added`), with the payload fields from `events.ts`. -/
inductive ClientMsg where
  | joinRoom (roomCode : String) (user : UserRecord)
  | leaveRoom (roomCode : String)
  | pageChange (roomCode : String) (pageNumber : Int) (userId : String)
  | cursorMove (roomCode : String) (x y : Int) (userId : String)
  | commentAdded (roomCode : String) (comment : CommentBody)
deriving DecidableEq, Repr

/-- Broker state: the per-socket fields and the Socket.IO adapter's room
membership.  `rooms rc` is the member list of room `rc`
(`io.sockets.adapter.rooms.get(rc) || []`); a room nobody has joined is
the empty list. -/
structure ServerState where
  sockets : String → SocketData
  rooms : String → List String

/-- `io.sockets.adapter.rooms.get(rc) || []`: the current members of a
room. -/
def roomMembers (st : ServerState) (rc : String) : List String :=
  st.rooms rc

/-- `socket.join(rc)`: adds `sid` to room `rc` if not already a member;
no other room changes (Socket.IO `join` never leaves other rooms). -/
def joinAdapter (rooms : String → List String) (sid rc : String) :
    String → List String :=
  fun r =>
    if r = rc then (if sid ∈ rooms rc then rooms rc else rooms rc ++ [sid])
    else rooms r

/-- `socket.to(rc).emit(ev)`: one delivery of `ev` to each current member
of room `rc` other than the sender `sid`. -/
def roomFanout (st : ServerState) (sid rc : String) (ev : ServerEvent) :
    List (String × ServerEvent) :=
  ((roomMembers st rc).filter (fun m => m ≠ sid)).map (fun m => (m, ev))

/-- The `room-users` roster computed in the `join-room` handler
(`socket-server.js` lines 54-67): map each member socket to an entry when
its `userInfo` is set, to `null` otherwise, then `.filter(Boolean)`. -/
def computeRoomUsers (st : ServerState) (rc : String) : List RosterEntry :=
  ((roomMembers st rc).map (fun sid =>
    match (st.sockets sid).userInfo with
    | some u =>
        some { userId := u.id, userName := displayName u, socketId := sid }
    | none => none)).filterMap id

/-- One step of the server's inbound-event dispatch for socket `sid`:
the `socket.on(...)` handlers of `socket-server.js` lines 38-105,
returning the new broker state and the list of (target socket, event)
deliveries.  `now` is the server clock reading used for the timestamp.
The server registers no listener for `leave-room`, so that message falls
through Socket.IO's dispatch with no effect and no reply. -/
def serverHandle (st : ServerState) (sid : String) (msg : ClientMsg)
    (now : String) : ServerState × List (String × ServerEvent) :=
  match msg with
  | .joinRoom rc user =>
      let st1 : ServerState :=
        { sockets := fun s =>
            if s = sid then { currentRoom := some rc, userInfo := some user }
            else st.sockets s,
          rooms := joinAdapter st.rooms sid rc }
      let notify := roomFanout st1 sid rc
        (ServerEvent.userJoined user.id (displayName user) now)
      (st1, notify ++ [(sid, ServerEvent.roomUsers (computeRoomUsers st1 rc))])
  | .leaveRoom _ => (st, [])
  | .pageChange rc pn uid =>
      (st, roomFanout st sid rc (ServerEvent.pageChanged pn uid now))
  | .cursorMove rc x y uid =>
      (st, roomFanout st sid rc (ServerEvent.cursorMoved x y uid sid now))
  | .commentAdded rc c =>
      (st, roomFanout st sid rc (ServerEvent.commentReceived c now))

/-- Client-side roster entry (`UserInfo` in `events.ts`): `socketId` is
optional and absent in `user-joined` / `user-left` payloads. -/
structure UserInfo where
  userId : String
  userName : String
  socketId : Option String
deriving DecidableEq, Repr

/-- The `useSocket` hook's state: `socketRef.current` modelled by the
boolean `socketExists`, the signed-in user from `useAuth`, and the five
`useState` cells. -/
structure ClientState where
  socketExists : Bool
  userOpt : Option UserRecord
  isConnected : Bool
  isConnecting : Bool
  error : Option String
  currentRoom : Option String
  roomUsers : List UserInfo
deriving DecidableEq, Repr

/-- The `connect` handler (`useSocket.ts` lines 75-80). -/
def handleConnect (cs : ClientState) : ClientState :=
  { cs with isConnected := true, isConnecting := false, error := none }

/-- The `disconnect` handler (`useSocket.ts` lines 82-88). -/
def handleDisconnect (cs : ClientState) : ClientState :=
  { cs with isConnected := false, isConnecting := false,
            currentRoom := none, roomUsers := [] }

/-- The `user-joined` handler (`useSocket.ts` lines 102-108): drop any
existing entries with the same `userId`, then append the new one. -/
def handleUserJoined (cs : ClientState) (u : UserInfo) : ClientState :=
  { cs with roomUsers :=
      cs.roomUsers.filter (fun v => v.userId ≠ u.userId) ++ [u] }

/-- The `user-left` handler (`useSocket.ts` lines 110-113): drop every
entry with the departing `userId`. -/
def handleUserLeft (cs : ClientState) (u : UserInfo) : ClientState :=
  { cs with roomUsers := cs.roomUsers.filter (fun v => v.userId ≠ u.userId) }

/-- The `room-users` handler (`useSocket.ts` lines 115-118). -/
def handleRoomUsers (cs : ClientState) (us : List UserInfo) : ClientState :=
  { cs with roomUsers := us }

/-- `joinRoom` (`useSocket.ts` lines 150-168): guarded by
`socketRef.current` and `user`; emits `join-room` and sets
`currentRoom`. -/
def clientJoinRoom (cs : ClientState) (rc : String) :
    ClientState × Option ClientMsg :=
  match cs.socketExists, cs.userOpt with
  | true, some u => ({ cs with currentRoom := some rc },
                     some (ClientMsg.joinRoom rc u))
  | _, _ => (cs, none)

/-- `leaveRoom` (`useSocket.ts` lines 173-180): guarded by
`socketRef.current` and `currentRoom`; emits `leave-room` for the current
room and clears `currentRoom` and `roomUsers`. -/
def clientLeaveRoom (cs : ClientState) : ClientState × Option ClientMsg :=
  match cs.socketExists, cs.currentRoom with
  | true, some rc => ({ cs with currentRoom := none, roomUsers := [] },
                      some (ClientMsg.leaveRoom rc))
  | _, _ => (cs, none)

/-- `emitPageChange` (`useSocket.ts` lines 185-198): guarded only by
`socketRef.current` and `user`; emits with the caller-supplied
`roomCode`. -/
def emitPageChange (cs : ClientState) (rc : String) (pn : Int) :
    Option ClientMsg :=
  match cs.socketExists, cs.userOpt with
  | true, some u => some (ClientMsg.pageChange rc pn u.id)
  | _, _ => none

/-- `emitCursorMove` (`useSocket.ts` lines 203-216): same guards as
`emitPageChange`. -/
def emitCursorMove (cs : ClientState) (rc : String) (x y : Int) :
    Option ClientMsg :=
  match cs.socketExists, cs.userOpt with
  | true, some u => some (ClientMsg.cursorMove rc x y u.id)
  | _, _ => none

/-- `emitComment` (`useSocket.ts` lines 221-230): guarded only by
`socketRef.current`. -/
def emitComment (cs : ClientState) (rc : String) (c : CommentBody) :
    Option ClientMsg :=
  if cs.socketExists then some (ClientMsg.commentAdded rc c) else none

/-! ## Example data used to instantiate the theorems -/

/-- A user record with no `user_metadata`. -/
def aliceRec : UserRecord :=
  { id := "alice", email := "alice@example.com", user_metadata := none }

/-- A second user record. -/
def bobRec : UserRecord :=
  { id := "bob", email := "bob@example.com", user_metadata := none }

/-- Broker state before any join: every room empty, every socket bare. -/
def emptySrv : ServerState :=
  { sockets := fun _ => { currentRoom := none, userInfo := none },
    rooms := fun _ => [] }

/-- State after `c1` joins room "A" on an empty broker. -/
def srvA : ServerState :=
  (serverHandle emptySrv "c1" (ClientMsg.joinRoom "A" aliceRec) "t1").1

/-- State after `c1` then `c2` join room "R" on an empty broker. -/
def srvR2 : ServerState :=
  (serverHandle
    (serverHandle emptySrv "c1" (ClientMsg.joinRoom "R" aliceRec) "t1").1
    "c2" (ClientMsg.joinRoom "R" bobRec) "t2").1

/-- State after only `c2` joins room "R" on an empty broker. -/
def srvOnlyC2 : ServerState :=
  (serverHandle emptySrv "c2" (ClientMsg.joinRoom "R" bobRec) "t1").1

/-- A concrete comment payload. -/
def exCmt : CommentBody :=
  { id := "cm1", content := "hi", pageNumber := 2, pos := none,
    userId := "alice", userName := "Alice" }

/-- A client hook state that is connected and in room "R". -/
def csInRoom : ClientState :=
  { socketExists := true, userOpt := some aliceRec, isConnected := true,
    isConnecting := false, error := none, currentRoom := some "R",
    roomUsers := [] }

/-- A client hook state that is connected but in no room. -/
def csNoRoom : ClientState :=
  { socketExists := true, userOpt := some aliceRec, isConnected := true,
    isConnecting := false, error := none, currentRoom := none,
    roomUsers := [] }

/-- A user record for the "same account, two tabs" scenario. -/
def tabRec : UserRecord :=
  { id := "u1", email := "u@example.com", user_metadata := none }

/-- State after two sockets `c1` and `c2`, both carrying the same user
record, join room "R". -/
def srvSameUser : ServerState :=
  (serverHandle
    (serverHandle emptySrv "c1" (ClientMsg.joinRoom "R" tabRec) "t1").1
    "c2" (ClientMsg.joinRoom "R" tabRec) "t2").1

/-- The `user-joined` payload both of those joins produce at a peer client
(the payload carries no socketId). -/
def u1Joined : UserInfo :=
  { userId := "u1", userName := "u@example.com", socketId := none }

/-- A `room-users` roster entry as the client receives it: same fields,
`socketId` present. -/
def rosterToUserInfo (e : RosterEntry) : UserInfo :=
  { userId := e.userId, userName := e.userName, socketId := some e.socketId }

/-! ## Helper lemmas -/

lemma mem_joinAdapter_self (rooms : String → List String) (sid rc : String) :
    sid ∈ joinAdapter rooms sid rc rc := by
  unfold joinAdapter
  rw [if_pos rfl]
  by_cases h : sid ∈ rooms rc
  · rw [if_pos h]; exact h
  · rw [if_neg h]; exact List.mem_append_right _ (List.mem_singleton.mpr rfl)

lemma joinAdapter_other (rooms : String → List String) (sid rc r : String)
    (h : r ≠ rc) : joinAdapter rooms sid rc r = rooms r := by
  unfold joinAdapter
  rw [if_neg h]

lemma mem_roomFanout (st : ServerState) (sid rc : String) (ev : ServerEvent)
    {m : String} (hm : m ∈ roomMembers st rc) (hne : m ≠ sid) :
    (m, ev) ∈ roomFanout st sid rc ev := by
  unfold roomFanout
  exact List.mem_map.mpr ⟨m, List.mem_filter.mpr ⟨hm, decide_eq_true hne⟩, rfl⟩

lemma roomFanout_fst_ne (st : ServerState) (sid rc : String) (ev : ServerEvent)
    {e : String × ServerEvent} (he : e ∈ roomFanout st sid rc ev) :
    e.1 ≠ sid := by
  unfold roomFanout at he
  obtain ⟨a, ha, rfl⟩ := List.mem_map.mp he
  exact of_decide_eq_true (List.mem_filter.mp ha).2

lemma roomFanout_snd_eq (st : ServerState) (sid rc : String) (ev : ServerEvent)
    {e : String × ServerEvent} (he : e ∈ roomFanout st sid rc ev) :
    e.2 = ev := by
  unfold roomFanout at he
  obtain ⟨a, ha, rfl⟩ := List.mem_map.mp he
  rfl

lemma roomFanout_of_not_mem (st : ServerState) (sid rc : String)
    (ev : ServerEvent) (h : sid ∉ roomMembers st rc) :
    roomFanout st sid rc ev = (roomMembers st rc).map (fun m => (m, ev)) := by
  unfold roomFanout
  congr 1
  apply List.filter_eq_self.mpr
  intro a ha
  exact decide_eq_true (fun hEq => h (hEq ▸ ha))

lemma filter_eq_of_filter_ne (c : String) (l : List UserInfo) :
    (l.filter (fun v => v.userId ≠ c)).filter (fun v => v.userId = c) =
      [] := by
  induction l with
  | nil => rfl
  | cons a t ih =>
      by_cases h : a.userId = c
      · simp [List.filter_cons, h, ih]
      · simp [List.filter_cons, h, ih]

lemma mem_computeRoomUsers_of (st : ServerState) (rc s : String)
    (u : UserRecord) (hs : s ∈ roomMembers st rc)
    (hu : (st.sockets s).userInfo = some u) :
    ({ userId := u.id, userName := displayName u, socketId := s } :
      RosterEntry) ∈ computeRoomUsers st rc := by
  unfold computeRoomUsers
  apply List.mem_filterMap.mpr
  refine ⟨some { userId := u.id, userName := displayName u, socketId := s },
    ?_, rfl⟩
  apply List.mem_map.mpr
  exact ⟨s, hs, by rw [hu]⟩

/-! ## The claims -/

/-- C1: the client's `leaveRoom` does emit `leave-room {roomCode}` for its
current room, but the server registers no listener for `leave-room`, so the
message has no effect: the broker state is unchanged (the connection stays
in the room's member set) and no `user-left` is fanned out to anyone. -/
theorem C1_explicit_leave_ignored_by_server (st : ServerState)
    (cs : ClientState) (sid rc now : String)
    (hs : cs.socketExists = true) (hr : cs.currentRoom = some rc) :
    (clientLeaveRoom cs).2 = some (ClientMsg.leaveRoom rc) ∧
    serverHandle st sid (ClientMsg.leaveRoom rc) now = (st, []) := by
  constructor
  · simp [clientLeaveRoom, hs, hr]
  · rfl

/-- Witness for C1 at a concrete state: a client in room "R" emits
`leave-room "R"`, and the broker with `c1, c2` in "R" delivers nothing and
keeps its state. -/
theorem C1_explicit_leave_ignored_by_server_witness :
    (clientLeaveRoom csInRoom).2 = some (ClientMsg.leaveRoom "R") ∧
    serverHandle srvR2 "c1" (ClientMsg.leaveRoom "R") "t3" = (srvR2, []) :=
  C1_explicit_leave_ignored_by_server srvR2 csInRoom "c1" "R" "t3" rfl rfl

/-- C2 is false on the code: `c1` is not a member of room "R", yet its
`page-change` naming "R" is fanned out to "R"'s member `c2`; the event is
not dropped and no `NotInRoom` failure occurs (no such error exists in the
server). -/
theorem C2_counterexample :
    ("c1" ∉ roomMembers srvOnlyC2 "R") ∧
    (serverHandle srvOnlyC2 "c1" (ClientMsg.pageChange "R" 5 "alice")
        "t2").2 =
      [("c2", ServerEvent.pageChanged 5 "alice" "t2")] := by
  decide

/-- C2 (amended): the routed handlers perform no membership validation:
when the sender is not a member of the named room, its page-change,
cursor-move or comment-added event is still delivered to every current
member of that room (the sender-exclusion filter removes nothing), and the
broker state is unchanged; no `NotInRoom` error is produced. -/
theorem C2_no_membership_validation (st : ServerState)
    (sid rc uid now : String) (pn x y : Int) (c : CommentBody)
    (hns : sid ∉ roomMembers st rc) :
    (serverHandle st sid (ClientMsg.pageChange rc pn uid) now =
      (st, (roomMembers st rc).map
        (fun m => (m, ServerEvent.pageChanged pn uid now)))) ∧
    (serverHandle st sid (ClientMsg.cursorMove rc x y uid) now =
      (st, (roomMembers st rc).map
        (fun m => (m, ServerEvent.cursorMoved x y uid sid now)))) ∧
    (serverHandle st sid (ClientMsg.commentAdded rc c) now =
      (st, (roomMembers st rc).map
        (fun m => (m, ServerEvent.commentReceived c now)))) := by
  refine ⟨?_, ?_, ?_⟩
  · show (st, roomFanout st sid rc (ServerEvent.pageChanged pn uid now)) = _
    rw [roomFanout_of_not_mem st sid rc _ hns]
  · show (st, roomFanout st sid rc
      (ServerEvent.cursorMoved x y uid sid now)) = _
    rw [roomFanout_of_not_mem st sid rc _ hns]
  · show (st, roomFanout st sid rc (ServerEvent.commentReceived c now)) = _
    rw [roomFanout_of_not_mem st sid rc _ hns]

/-- Witness for C2 (amended): non-member `c1` routes a page-change to "R";
it is delivered to the full member list of "R". -/
theorem C2_no_membership_validation_witness :
    serverHandle srvOnlyC2 "c1" (ClientMsg.pageChange "R" 7 "alice") "t9" =
      (srvOnlyC2, (roomMembers srvOnlyC2 "R").map
        (fun m => (m, ServerEvent.pageChanged 7 "alice" "t9"))) :=
  (C2_no_membership_validation srvOnlyC2 "c1" "R" "alice" "t9" 7 0 0
    exCmt (by decide)).1

/-- C3 is false on the code: `c1` joins room "A" and then room "B"; it is a
member of both rooms afterwards, contradicting the claim that joining "B"
first removes the connection from "A". -/
theorem C3_counterexample :
    "c1" ∈ roomMembers
      (serverHandle srvA "c1" (ClientMsg.joinRoom "B" aliceRec) "t2").1 "A" ∧
    "c1" ∈ roomMembers
      (serverHandle srvA "c1" (ClientMsg.joinRoom "B" aliceRec) "t2").1 "B" := by
  decide

/-- C3 (amended): `socket.join` adds to the new room without leaving the
old one: after a member of `rcA` handles `join-room rcB` (`rcA ≠ rcB`), the
connection is a member of both `rcA` and `rcB`; only its `currentRoom`
field is overwritten to `rcB`. -/
theorem C3_join_keeps_previous_room (st : ServerState)
    (sid rcA rcB : String) (user : UserRecord) (now : String)
    (hmem : sid ∈ roomMembers st rcA) (hne : rcA ≠ rcB) :
    sid ∈ roomMembers
      (serverHandle st sid (ClientMsg.joinRoom rcB user) now).1 rcA ∧
    sid ∈ roomMembers
      (serverHandle st sid (ClientMsg.joinRoom rcB user) now).1 rcB ∧
    ((serverHandle st sid (ClientMsg.joinRoom rcB user) now).1.sockets
      sid).currentRoom = some rcB := by
  refine ⟨?_, ?_, ?_⟩
  · show sid ∈ joinAdapter st.rooms sid rcB rcA
    rw [joinAdapter_other st.rooms sid rcB rcA hne]
    exact hmem
  · exact mem_joinAdapter_self st.rooms sid rcB
  · show (if sid = sid then
        ({ currentRoom := some rcB, userInfo := some user } : SocketData)
      else st.sockets sid).currentRoom = some rcB
    rw [if_pos rfl]

/-- Witness for C3 (amended): instantiated with `c1` in room "A" joining
room "B". -/
theorem C3_join_keeps_previous_room_witness :
    "c1" ∈ roomMembers
      (serverHandle srvA "c1" (ClientMsg.joinRoom "B" aliceRec) "t2").1 "A" :=
  (C3_join_keeps_previous_room srvA "c1" "A" "B" aliceRec "t2"
    (by decide) (by decide)).1

/-- C4 is false on the code: `c1`'s bound identity is `aliceRec`
(id "alice"), yet a `page-change` whose payload carries userId "mallory"
is fanned out to `c2` stamped with "mallory": the origin user id is taken
from the inbound payload, not from the bound identity. -/
theorem C4_counterexample :
    ((srvR2.sockets "c1").userInfo = some aliceRec) ∧
    (serverHandle srvR2 "c1" (ClientMsg.pageChange "R" 5 "mallory")
        "t3").2 =
      [("c2", ServerEvent.pageChanged 5 "mallory" "t3")] ∧
    "mallory" ≠ aliceRec.id := by
  decide

/-- C4 (amended): the broker does stamp a server-side timestamp, but the
origin user id it attaches to a fanned-out `page-changed` is the inbound
payload's `userId` field; when the sender's bound identity has a different
id, the delivered event carries the payload id and differs from the event
the bound identity would have produced. -/
theorem C4_origin_userid_from_payload (st : ServerState)
    (sid rc uid now : String) (pn : Int) (u : UserRecord)
    (e1 : String × ServerEvent)
    (hu : (st.sockets sid).userInfo = some u) (hne : u.id ≠ uid)
    (h1 : e1 ∈ (serverHandle st sid (ClientMsg.pageChange rc pn uid)
      now).2) :
    e1.2 = ServerEvent.pageChanged pn uid now ∧
    e1.2 ≠ ServerEvent.pageChanged pn u.id now := by
  have h := roomFanout_snd_eq st sid rc _ h1
  refine ⟨h, ?_⟩
  rw [h]
  intro hcontra
  apply hne
  injection hcontra with h1' h2' h3'
  exact h2'.symm

/-- Witness for C4 (amended): `c1` (bound to "alice") sends a payload
claiming "mallory"; the copy delivered to `c2` is stamped "mallory" and is
not the event that identity "alice" would have yielded. -/
theorem C4_origin_userid_from_payload_witness :
    (("c2", ServerEvent.pageChanged 5 "mallory" "t3") :
        String × ServerEvent).2 =
      ServerEvent.pageChanged 5 "mallory" "t3" ∧
    (("c2", ServerEvent.pageChanged 5 "mallory" "t3") :
        String × ServerEvent).2 ≠
      ServerEvent.pageChanged 5 "alice" "t3" :=
  C4_origin_userid_from_payload srvR2 "c1" "R" "mallory" "t3" 5 aliceRec
    ("c2", ServerEvent.pageChanged 5 "mallory" "t3")
    (by decide) (by decide) (by decide)

/-- C5: a page-change emitted by a member `sid` of room `rc` produces a
`page-changed` delivered to every other current member of the room and
never back to `sid` itself (`socket.to(rc)` excludes the sender). -/
theorem C5_page_change_to_all_others_never_sender (st : ServerState)
    (sid rc uid now : String) (pn : Int)
    (hmem : sid ∈ roomMembers st rc) :
    (∀ m, m ∈ roomMembers st rc → m ≠ sid →
      (m, ServerEvent.pageChanged pn uid now) ∈
        (serverHandle st sid (ClientMsg.pageChange rc pn uid) now).2) ∧
    (∀ e ∈ (serverHandle st sid (ClientMsg.pageChange rc pn uid) now).2,
      e.1 ≠ sid) := by
  constructor
  · intro m hm hne
    exact mem_roomFanout st sid rc _ hm hne
  · intro e he
    exact roomFanout_fst_ne st sid rc _ he

/-- Witness for C5: in the two-member room "R", member `c1`'s page-change
is delivered to the other member `c2`. -/
theorem C5_page_change_to_all_others_never_sender_witness :
    ("c2", ServerEvent.pageChanged 5 "alice" "t3") ∈
      (serverHandle srvR2 "c1" (ClientMsg.pageChange "R" 5 "alice")
        "t3").2 :=
  (C5_page_change_to_all_others_never_sender srvR2 "c1" "R" "alice" "t3" 5
    (by decide)).1 "c2" (by decide) (by decide)

/-- C7 is false on the code: a join with the empty room code succeeds: the
connection becomes a member of room `""`, its `currentRoom` is set to `""`,
and a `room-users` roster reply is sent; no `InvalidRoom` error exists. -/
theorem C7_counterexample :
    "c1" ∈ roomMembers
      (serverHandle emptySrv "c1" (ClientMsg.joinRoom "" aliceRec) "t1").1 "" ∧
    ((serverHandle emptySrv "c1" (ClientMsg.joinRoom "" aliceRec)
        "t1").1.sockets "c1").currentRoom = some "" ∧
    (serverHandle emptySrv "c1" (ClientMsg.joinRoom "" aliceRec) "t1").2 =
      [("c1", ServerEvent.roomUsers
        [{ userId := "alice", userName := "alice@example.com",
           socketId := "c1" }])] := by
  decide

/-- C7 (amended): the join handler never validates the room code: from any
broker state, `join-room` with the empty room code adds the connection to
room `""`, sets its `currentRoom` to `""`, and replies with a `room-users`
roster; no error is produced. -/
theorem C7_empty_room_code_join_succeeds (st : ServerState) (sid : String)
    (user : UserRecord) (now : String) :
    sid ∈ roomMembers
      (serverHandle st sid (ClientMsg.joinRoom "" user) now).1 "" ∧
    ((serverHandle st sid (ClientMsg.joinRoom "" user) now).1.sockets
      sid).currentRoom = some "" ∧
    ∃ roster, (sid, ServerEvent.roomUsers roster) ∈
      (serverHandle st sid (ClientMsg.joinRoom "" user) now).2 := by
  refine ⟨mem_joinAdapter_self st.rooms sid "", ?_, ?_⟩
  · show (if sid = sid then
        ({ currentRoom := some "", userInfo := some user } : SocketData)
      else st.sockets sid).currentRoom = some ""
    rw [if_pos rfl]
  · exact ⟨_, List.mem_append_right _ (List.mem_singleton.mpr rfl)⟩

/-- C6 is false on the code: with two connections `c1`, `c2` both bound to
userId "u1" in room "R", the server's `room-users` reply does hold two
entries, but a peer client that processes the two `user-joined` events
keeps only one roster entry (the handler drops existing entries with the
same userId), and one `user-left` for "u1" empties a roster that held both
connections' entries, removing both rather than only one. -/
theorem C6_counterexample :
    (computeRoomUsers srvSameUser "R").length = 2 ∧
    ((handleUserJoined (handleUserJoined csInRoom u1Joined)
      u1Joined).roomUsers).length = 1 ∧
    (handleUserLeft (handleRoomUsers csInRoom
        ((computeRoomUsers srvSameUser "R").map rosterToUserInfo))
      u1Joined).roomUsers = [] := by
  decide

/-- C6 (amended): presence is per-connection on the server but per-user on
the client: the `room-users` reply holds one entry per member connection
(two distinct entries for two connections sharing a userId), while the
client roster keys by userId: after `user-joined` exactly the new entry
carries that userId, and after `user-left` no entry with that userId
remains. -/
theorem C6_server_per_connection_client_per_user (st : ServerState)
    (rc s1 s2 : String) (u1 u2 : UserRecord) (cs : ClientState)
    (v : UserInfo) (hne : s1 ≠ s2)
    (h1 : s1 ∈ roomMembers st rc) (h2 : s2 ∈ roomMembers st rc)
    (hu1 : (st.sockets s1).userInfo = some u1)
    (hu2 : (st.sockets s2).userInfo = some u2) (hid : u1.id = u2.id) :
    (({ userId := u1.id, userName := displayName u1, socketId := s1 } :
      RosterEntry) ∈ computeRoomUsers st rc) ∧
    (({ userId := u2.id, userName := displayName u2, socketId := s2 } :
      RosterEntry) ∈ computeRoomUsers st rc) ∧
    ({ userId := u1.id, userName := displayName u1, socketId := s1 } :
        RosterEntry) ≠
      { userId := u2.id, userName := displayName u2, socketId := s2 } ∧
    ((handleUserJoined cs v).roomUsers.filter
      (fun w => w.userId = v.userId)) = [v] ∧
    ((handleUserLeft cs v).roomUsers.filter
      (fun w => w.userId = v.userId)) = [] := by
  refine ⟨mem_computeRoomUsers_of st rc s1 u1 h1 hu1,
    mem_computeRoomUsers_of st rc s2 u2 h2 hu2, ?_, ?_, ?_⟩
  · intro hEq
    exact hne (congrArg RosterEntry.socketId hEq)
  · show ((cs.roomUsers.filter (fun w => w.userId ≠ v.userId)) ++
      [v]).filter (fun w => w.userId = v.userId) = [v]
    rw [List.filter_append, filter_eq_of_filter_ne]
    simp
  · exact filter_eq_of_filter_ne v.userId cs.roomUsers

/-- Witness for C6 (amended): instantiated with the two same-user sockets
of `srvSameUser` and a client roster update for "u1". -/
theorem C6_server_per_connection_client_per_user_witness :
    ({ userId := "u1", userName := "u@example.com", socketId := "c1" } :
      RosterEntry) ∈ computeRoomUsers srvSameUser "R" :=
  (C6_server_per_connection_client_per_user srvSameUser "R" "c1" "c2"
    tabRec tabRec csInRoom u1Joined (by decide) (by decide) (by decide)
    (by decide) (by decide) rfl).1

/-- C8 is false on the code: with a live socket and a signed-in user but
`currentRoom = none`, all three emit helpers still emit (with the
caller-supplied room code), and no error is reported. -/
theorem C8_counterexample :
    csNoRoom.currentRoom = none ∧
    emitPageChange csNoRoom "R" 5 =
      some (ClientMsg.pageChange "R" 5 "alice") ∧
    emitCursorMove csNoRoom "R" 1 2 =
      some (ClientMsg.cursorMove "R" 1 2 "alice") ∧
    emitComment csNoRoom "R" exCmt =
      some (ClientMsg.commentAdded "R" exCmt) := by
  decide

/-- C8 (amended): the emit helpers never consult `currentRoom` and report
no `NotInRoom` error: `emitPageChange`/`emitCursorMove` emit whenever the
socket exists and a user is signed in, and `emitComment` whenever the
socket exists, whatever the room state; when their guards fail they
silently emit nothing, still without recording an error. -/
theorem C8_emits_ignore_room_state (cs : ClientState) (u : UserRecord)
    (rc : String) (pn x y : Int) (c : CommentBody)
    (hs : cs.socketExists = true) (hu : cs.userOpt = some u) :
    emitPageChange cs rc pn = some (ClientMsg.pageChange rc pn u.id) ∧
    emitCursorMove cs rc x y = some (ClientMsg.cursorMove rc x y u.id) ∧
    emitComment cs rc c = some (ClientMsg.commentAdded rc c) := by
  unfold emitPageChange emitCursorMove emitComment
  rw [hs, hu]
  exact ⟨rfl, rfl, rfl⟩

/-- Witness for C8 (amended): discharged at the concrete client state that
is in no room; the page-change is still emitted. -/
theorem C8_emits_ignore_room_state_witness :
    emitPageChange csNoRoom "R" 5 =
      some (ClientMsg.pageChange "R" 5 "alice") :=
  (C8_emits_ignore_room_state csNoRoom aliceRec "R" 5 1 2 exCmt rfl rfl).1

/-- C9: every entry of the `room-users` roster reply originates from a
member socket whose `userInfo` is set: its userId is that user's id and
its userName the user's display name; sockets with unset `userInfo` are
mapped to null and removed by `.filter(Boolean)`, contributing no
entry. -/
theorem C9_roster_entries_have_identity (st : ServerState) (rc : String)
    (e : RosterEntry) (he : e ∈ computeRoomUsers st rc) :
    ∃ sid u, sid ∈ roomMembers st rc ∧
      (st.sockets sid).userInfo = some u ∧
      e = { userId := u.id, userName := displayName u, socketId := sid } := by
  unfold computeRoomUsers at he
  obtain ⟨a, ha, hae⟩ := List.mem_filterMap.mp he
  obtain ⟨sid, hsid, hfa⟩ := List.mem_map.mp ha
  have ha' : a = some e := hae
  rw [ha'] at hfa
  cases hcase : (st.sockets sid).userInfo with
  | none =>
      rw [hcase] at hfa
      exact Option.noConfusion hfa
  | some u =>
      rw [hcase] at hfa
      exact ⟨sid, u, hsid, hcase, (Option.some.inj hfa).symm⟩

/-- Witness for C9: the entry for `c2` in the two-member roster of
`srvR2`. -/
theorem C9_roster_entries_have_identity_witness :
    ∃ sid u, sid ∈ roomMembers srvR2 "R" ∧
      (srvR2.sockets sid).userInfo = some u ∧
      ({ userId := "bob", userName := "bob@example.com",
         socketId := "c2" } : RosterEntry) =
        { userId := u.id, userName := displayName u, socketId := sid } :=
  C9_roster_entries_have_identity srvR2 "R"
    { userId := "bob", userName := "bob@example.com", socketId := "c2" }
    (by decide)

/-- C10: the client's `disconnect` handler clears all room state:
`currentRoom` becomes `none` and `roomUsers` becomes `[]`; the `connect`
handler run on reconnection touches neither, so the adapter stays out of
any room until `joinRoom` is called again. -/
theorem C10_disconnect_clears_room_state (cs : ClientState) :
    (handleDisconnect cs).currentRoom = none ∧
    (handleDisconnect cs).roomUsers = [] ∧
    (handleConnect (handleDisconnect cs)).currentRoom = none ∧
    (handleConnect (handleDisconnect cs)).roomUsers = [] :=
  ⟨rfl, rfl, rfl, rfl⟩

end LiveCollab
